import Mathlib

/-!
Verification of the range-selection controller in `src/trace.js`
(udoprog/unlock). The file embeds the per-timeline event handlers of the
later revision of the source — the `mousedown` handler, the `mousemove`
closure it installs, and `clearSlider` (invoked from `mouseup`) — as a
state machine over an explicit `State`, and proves or refutes the
specification's claims about it.

Coordinates (`e.offsetX / $target.clientWidth`) are modelled as rationals;
entry and timeline timestamps (`parseInt` of `data-*` attributes) as
integers.  DOM effects are modelled by explicit fields: the presence of the
`visible` class on the toggle element, the `hidden` class per entry, the
slider handle held by the closure, and the number of slider elements
attached next to the track (so that "at most one slider element" is a
statement, not a structural triviality).
-/

namespace Unlock

/-- One `[data-entry]` element inside the details container: its
`data-entry-start` and `data-entry-close` timestamps and whether the
`hidden` class is currently present. -/
structure Entry where
  start : Int
  close : Int
  hidden : Bool
deriving Repr, DecidableEq

/-- Static per-timeline data read from the DOM inside `clearSlider`:
`parseInt($timeline.getAttribute("data-start"))` and `data-end`. -/
structure Config where
  tlStart : Int
  tlEnd : Int
deriving Repr, DecidableEq

/-- The mutable closure state of one timeline instance, together with the
DOM state the handlers read and write.

* `moveActive` — whether a `mousemove` listener is currently attached
  (the closure variable `move` is non-null);
* `start` — the origin fraction set on `mousedown`
  (`e.offsetX / $target.clientWidth`), `none` when the closure variable is
  `null`;
* `slider` — whether the closure variable `slider` holds a handle;
* `sliderCount` — how many slider `div` elements are attached as siblings
  of the track element;
* `spanFrom`, `spanTo` — the fields of the `span` object, `none` for
  `null`;
* `sliderLeft`, `sliderWidth` — the inline `left`/`width` style of the
  current slider element, in whole percent, `none` when not yet written;
* `visible` — presence of the `visible` class on the toggle element;
* `entries` — the `[data-entry]` elements of the details container. -/
structure State where
  moveActive : Bool
  start : Option ℚ
  slider : Bool
  sliderCount : Nat
  spanFrom : Option ℚ
  spanTo : Option ℚ
  sliderLeft : Option Int
  sliderWidth : Option Int
  visible : Bool
  entries : List Entry
deriving Repr, DecidableEq

/-- JavaScript `Math.round`: round half toward positive infinity. -/
def jsRound (q : ℚ) : Int := ⌊q + 1 / 2⌋

/-- JavaScript `Math.min` on two (finite) numbers. -/
def jsMin (a b : ℚ) : ℚ := if a ≤ b then a else b

/-- JavaScript `Math.max` on two (finite) numbers. -/
def jsMax (a b : ℚ) : ℚ := if a ≤ b then b else a

/-- The body of the entry filter loop in `clearSlider`: the entry receives
the `hidden` class exactly when `entryStart < from || entryClose > to`. -/
def entryHidden (lo hi : ℚ) (e : Entry) : Bool :=
  decide ((e.start : ℚ) < lo ∨ (e.close : ℚ) > hi)

/-- The `clearSlider` closure.  If both span fields are set it maps the
span to the timeline domain (`duration * span.from`, `duration * span.to`),
re-classifies every entry (`hidden` iff `entryStart < from || entryClose
> to`), adds the `visible` class (`show()`) and nulls the span.  Otherwise
it removes the slider element if one exists, removes `hidden` from every
entry and toggles the `visible` class.  In both cases it then detaches the
`mousemove` listener and nulls `start`. -/
def clearSlider (cfg : Config) (s : State) : State :=
  let s1 : State :=
    match s.spanFrom, s.spanTo with
    | some f, some t =>
      let duration : Int := cfg.tlEnd - cfg.tlStart
      let lo : ℚ := (duration : ℚ) * f
      let hi : ℚ := (duration : ℚ) * t
      { s with
          entries := s.entries.map (fun e => { e with hidden := entryHidden lo hi e }),
          visible := true,
          spanFrom := none,
          spanTo := none }
    | _, _ =>
      let s2 : State :=
        if s.slider then
          { s with sliderCount := s.sliderCount - 1, slider := false }
        else s
      { s2 with
          entries := s2.entries.map (fun e => { e with hidden := false }),
          visible := !s2.visible }
  { s1 with moveActive := false, start := none }

/-- The `mousedown` handler: remove a leftover slider element if the
handle is non-null, create and attach a fresh slider element (no inline
styles yet), record the origin fraction `e.offsetX / $target.clientWidth`
and attach the `mousemove` listener. -/
def handleMousedown (s : State) (offsetX clientWidth : ℚ) : State :=
  let s1 : State :=
    if s.slider then
      { s with sliderCount := s.sliderCount - 1, slider := false }
    else s
  { s1 with
      sliderCount := s1.sliderCount + 1,
      slider := true,
      sliderLeft := none,
      sliderWidth := none,
      start := some (offsetX / clientWidth),
      moveActive := true }

/-- The `mousemove` closure, which only runs while attached.  It computes
the current fraction, sets `span.from`/`span.to` to the min/max of the
origin and the current fraction, and writes the slider element's `left`
and `width` styles as rounded whole percentages.  (`Math.min(null, x)`
coerces `null` to `0`; the `getD 0` mirrors that, though `start` is always
set while the listener is attached.) -/
def handleMousemove (s : State) (offsetX clientWidth : ℚ) : State :=
  if s.moveActive then
    let current : ℚ := offsetX / clientWidth
    let st : ℚ := s.start.getD 0
    let f : ℚ := jsMin st current
    let t : ℚ := jsMax st current
    { s with
        spanFrom := some f,
        spanTo := some t,
        sliderLeft := some (jsRound (f * 100)),
        sliderWidth := some (jsRound ((t - f) * 100)) }
  else s

/-- Pointer events delivered to one timeline instance. -/
inductive Event where
  | mousedown (offsetX clientWidth : ℚ)
  | mousemove (offsetX clientWidth : ℚ)
  | mouseup
deriving Repr, DecidableEq

/-- One event dispatch. -/
def step (cfg : Config) (s : State) : Event → State
  | .mousedown x w => handleMousedown s x w
  | .mousemove x w => handleMousemove s x w
  | .mouseup => clearSlider cfg s

/-- Dispatch a sequence of events in order. -/
def run (cfg : Config) (s : State) : List Event → State
  | [] => s
  | e :: es => run cfg (step cfg s e) es

/-- The idle state of a freshly initialized timeline closure (`move`,
`start`, `slider`, `span` all null, no slider element attached), over the
given panel visibility and entry list. -/
def initState (visible : Bool) (entries : List Entry) : State :=
  { moveActive := false
    start := none
    slider := false
    sliderCount := 0
    spanFrom := none
    spanTo := none
    sliderLeft := none
    sliderWidth := none
    visible := visible
    entries := entries }

/-- Modelled from the spec: the motion threshold `LIMIT = 0.001` that the
specification says the handlers compare displacements against.  No such
constant occurs anywhere in the source. -/
def LIMIT : ℚ := 1 / 1000

/-! ## Basic lemmas about the handlers -/

lemma jsMin_le_jsMax (a b : ℚ) : jsMin a b ≤ jsMax a b := by
  by_cases h : a ≤ b <;> simp [jsMin, jsMax, h]
  exact (not_le.mp h).le

lemma run_append (cfg : Config) (s : State) (l1 l2 : List Event) :
    run cfg s (l1 ++ l2) = run cfg (run cfg s l1) l2 := by
  induction l1 generalizing s with
  | nil => rfl
  | cons e es ih => simp [run, ih]

lemma step_mousemove_active (cfg : Config) (s : State) (x w : ℚ)
    (h : s.moveActive = true) :
    step cfg s (.mousemove x w) =
      { s with
          spanFrom := some (jsMin (s.start.getD 0) (x / w)),
          spanTo := some (jsMax (s.start.getD 0) (x / w)),
          sliderLeft := some (jsRound (jsMin (s.start.getD 0) (x / w) * 100)),
          sliderWidth :=
            some (jsRound ((jsMax (s.start.getD 0) (x / w)
              - jsMin (s.start.getD 0) (x / w)) * 100)) } := by
  simp [step, handleMousemove, h]

lemma clearSlider_commit (cfg : Config) (s : State) (f t : ℚ)
    (hf : s.spanFrom = some f) (ht : s.spanTo = some t) :
    clearSlider cfg s =
      { s with
          entries := s.entries.map (fun e =>
            { e with hidden := (entryHidden (((cfg.tlEnd - cfg.tlStart : ℤ) : ℚ) * f)
                (((cfg.tlEnd - cfg.tlStart : ℤ) : ℚ) * t) e) }),
          visible := true, spanFrom := none, spanTo := none,
          moveActive := false, start := none } := by
  simp [clearSlider, hf, ht]

lemma clearSlider_click (cfg : Config) (s : State)
    (h : s.spanFrom = none ∨ s.spanTo = none) :
    clearSlider cfg s =
      { s with
          slider := false,
          sliderCount := if s.slider then s.sliderCount - 1 else s.sliderCount,
          entries := s.entries.map (fun e => { e with hidden := false }),
          visible := !s.visible, moveActive := false, start := none } := by
  rcases h with h | h
  · cases hs : s.slider <;> simp [clearSlider, h, hs]
  · cases hF : s.spanFrom <;> cases hs : s.slider <;> simp [clearSlider, h, hs, hF]

lemma run_moves_preserve (cfg : Config) (s : State) (moves : List (ℚ × ℚ))
    (h : s.moveActive = true) :
    (run cfg s (moves.map (fun p => Event.mousemove p.1 p.2))).moveActive = true ∧
    (run cfg s (moves.map (fun p => Event.mousemove p.1 p.2))).slider = s.slider ∧
    (run cfg s (moves.map (fun p => Event.mousemove p.1 p.2))).sliderCount = s.sliderCount ∧
    (run cfg s (moves.map (fun p => Event.mousemove p.1 p.2))).visible = s.visible ∧
    (run cfg s (moves.map (fun p => Event.mousemove p.1 p.2))).entries = s.entries ∧
    (run cfg s (moves.map (fun p => Event.mousemove p.1 p.2))).start = s.start := by
  induction moves generalizing s with
  | nil => simp [run, h]
  | cons p ps ih =>
    simp only [List.map_cons, run]
    have h1 : (step cfg s (Event.mousemove p.1 p.2)).moveActive = true := by
      simp [step, handleMousemove, h]
    have H := ih (step cfg s (Event.mousemove p.1 p.2)) h1
    refine ⟨H.1, ?_, ?_, ?_, ?_, ?_⟩ <;>
      rw [step_mousemove_active cfg s p.1 p.2 h] at H ⊢ <;>
      simp only [H.2.1, H.2.2.1, H.2.2.2.1, H.2.2.2.2.1, H.2.2.2.2.2]

lemma run_moves_span_isSome (cfg : Config) (s : State) (moves : List (ℚ × ℚ))
    (h : s.moveActive = true) (hne : moves ≠ []) :
    (run cfg s (moves.map (fun p => Event.mousemove p.1 p.2))).spanFrom.isSome ∧
    (run cfg s (moves.map (fun p => Event.mousemove p.1 p.2))).spanTo.isSome := by
  induction moves generalizing s with
  | nil => cases hne rfl
  | cons p ps ih =>
    simp only [List.map_cons, run]
    by_cases hps : ps = []
    · subst hps
      simp [run, step, handleMousemove, h]
    · exact ih (step cfg s (Event.mousemove p.1 p.2)) (by simp [step, handleMousemove, h]) hps

lemma jsMin_self (a : ℚ) : jsMin a a = a := by simp [jsMin]

lemma jsMax_self (a : ℚ) : jsMax a a = a := by simp [jsMax]

/-! ## Claims -/

/-- C2: after a committed selection with span `[f, t]` the domain window is
`[duration * f, duration * t]`, and an entry is marked hidden if and only if
`entry.start` is below the lower bound or `entry.close` is above the upper
bound; in particular an entry whose `start` equals the lower bound and whose
`close` equals the upper bound remains visible (boundaries inclusive). -/
theorem C2_entry_visibility (cfg : Config) (s : State) (f t : ℚ)
    (hf : s.spanFrom = some f) (ht : s.spanTo = some t) :
    (clearSlider cfg s).entries = s.entries.map (fun e =>
      { e with hidden := (entryHidden (((cfg.tlEnd - cfg.tlStart : ℤ) : ℚ) * f)
          (((cfg.tlEnd - cfg.tlStart : ℤ) : ℚ) * t) e) }) ∧
    (∀ lo hi : ℚ, ∀ e : Entry,
      entryHidden lo hi e = true ↔ ((e.start : ℚ) < lo ∨ (e.close : ℚ) > hi)) ∧
    (∀ lo hi : ℚ, ∀ e : Entry, (e.start : ℚ) = lo → (e.close : ℚ) = hi →
      entryHidden lo hi e = false) := by
  refine ⟨?_, ?_, ?_⟩
  · rw [clearSlider_commit cfg s f t hf ht]
  · intro lo hi e
    simp [entryHidden]
  · intro lo hi e h1 h2
    simp [entryHidden, h1, h2]

/-- C2 witness: a committed span `[0, 1/2]` over the domain `[1000, 2000]`
gives the window `[0, 500]`; the single entry `[0, 500]` sits exactly on the
boundary and stays visible. -/
theorem C2_entry_visibility_witness :
    (({ initState false [⟨0, 500, true⟩] with
        spanFrom := some 0, spanTo := some (1/2) } : State).spanFrom = some 0) ∧
    (({ initState false [⟨0, 500, true⟩] with
        spanFrom := some 0, spanTo := some (1/2) } : State).spanTo = some (1/2)) ∧
    ((clearSlider ⟨1000, 2000⟩ { initState false [⟨0, 500, true⟩] with
        spanFrom := some 0, spanTo := some (1/2) }).entries
      = ([⟨0, 500, true⟩] : List Entry).map (fun e =>
        { e with hidden := (entryHidden (((2000 - 1000 : ℤ) : ℚ) * 0)
            (((2000 - 1000 : ℤ) : ℚ) * (1/2)) e) }) ∧
    (∀ lo hi : ℚ, ∀ e : Entry,
      entryHidden lo hi e = true ↔ ((e.start : ℚ) < lo ∨ (e.close : ℚ) > hi)) ∧
    (∀ lo hi : ℚ, ∀ e : Entry, (e.start : ℚ) = lo → (e.close : ℚ) = hi →
      entryHidden lo hi e = false)) :=
  ⟨rfl, rfl,
    C2_entry_visibility ⟨1000, 2000⟩
      { initState false [⟨0, 500, true⟩] with spanFrom := some 0, spanTo := some (1/2) }
      0 (1/2) rfl rfl⟩

/-- C5: after every motion update during a gesture (the mousemove listener
attached), `span.from ≤ span.to` holds, regardless of whether the pointer
moved left or right of the origin. -/
theorem C5_span_ordering (cfg : Config) (s : State) (x w a b : ℚ)
    (hact : s.moveActive = true)
    (hf : (step cfg s (.mousemove x w)).spanFrom = some a)
    (ht : (step cfg s (.mousemove x w)).spanTo = some b) : a ≤ b := by
  rw [step_mousemove_active cfg s x w hact] at hf ht
  simp only [Option.some.injEq] at hf ht
  subst hf
  subst ht
  exact jsMin_le_jsMax _ _

/-- C5 witness: a leftward motion update from origin `1/2` to `1/4` yields
the ordered span `[1/4, 1/2]`. -/
theorem C5_span_ordering_witness :
    (({ initState false [] with moveActive := true, start := some (1/2) } : State).moveActive
      = true) ∧
    ((step ⟨0, 1⟩ { initState false [] with moveActive := true, start := some (1/2) }
      (.mousemove 1 4)).spanFrom = some (1/4)) ∧
    ((step ⟨0, 1⟩ { initState false [] with moveActive := true, start := some (1/2) }
      (.mousemove 1 4)).spanTo = some (1/2)) ∧
    ((1 : ℚ)/4 ≤ 1/2) :=
  ⟨rfl,
    by norm_num [step, handleMousemove, initState, jsMin, jsMax],
    by norm_num [step, handleMousemove, initState, jsMin, jsMax],
    C5_span_ordering ⟨0, 1⟩
      { initState false [] with moveActive := true, start := some (1/2) } 1 4 (1/4) (1/2)
      rfl
      (by norm_num [step, handleMousemove, initState, jsMin, jsMax])
      (by norm_num [step, handleMousemove, initState, jsMin, jsMax])⟩

/-- C8: committing the same normalized span twice in a row yields the same
entry visibility assignment both times: the filter is recomputed from the
timestamps alone and never reads the previous hidden flags. -/
theorem C8_commit_idempotent (cfg : Config) (s : State) (f t : ℚ)
    (hf : s.spanFrom = some f) (ht : s.spanTo = some t) :
    (clearSlider cfg
      { clearSlider cfg s with spanFrom := some f, spanTo := some t }).entries
      = (clearSlider cfg s).entries := by
  rw [clearSlider_commit cfg s f t hf ht]
  rw [clearSlider_commit cfg _ f t rfl rfl]
  simp only [List.map_map]
  rfl

/-- C8 witness: recommitting the span `[0, 1/2]` over the domain `[0, 10]`
leaves the entry classification of `[⟨3, 9, false⟩]` unchanged. -/
theorem C8_commit_idempotent_witness :
    (({ initState false [⟨3, 9, false⟩] with
        spanFrom := some 0, spanTo := some (1/2) } : State).spanFrom = some 0) ∧
    (({ initState false [⟨3, 9, false⟩] with
        spanFrom := some 0, spanTo := some (1/2) } : State).spanTo = some (1/2)) ∧
    (clearSlider ⟨0, 10⟩
      { clearSlider ⟨0, 10⟩ { initState false [⟨3, 9, false⟩] with
          spanFrom := some 0, spanTo := some (1/2) } with
        spanFrom := some 0, spanTo := some (1/2) }).entries
      = (clearSlider ⟨0, 10⟩ { initState false [⟨3, 9, false⟩] with
          spanFrom := some 0, spanTo := some (1/2) }).entries :=
  ⟨rfl, rfl,
    C8_commit_idempotent ⟨0, 10⟩
      { initState false [⟨3, 9, false⟩] with spanFrom := some 0, spanTo := some (1/2) }
      0 (1/2) rfl rfl⟩

/-- C9: the commit decision depends only on whether at least one mousemove
fired after mousedown, not on displacement.  A single move at the origin
fraction itself (zero displacement) sets the span to the degenerate interval
`[f, f]`, and the release takes the commit path: entries are filtered
against the window `[duration*f, duration*f]` and the panel is forced
visible rather than toggled. -/
theorem C9_degenerate_commit (cfg : Config) (v : Bool) (es : List Entry) (x w : ℚ) :
    (run cfg (initState v es) [.mousedown x w, .mousemove x w]).spanFrom = some (x / w) ∧
    (run cfg (initState v es) [.mousedown x w, .mousemove x w]).spanTo = some (x / w) ∧
    (run cfg (initState v es) [.mousedown x w, .mousemove x w, .mouseup]).visible = true ∧
    (run cfg (initState v es) [.mousedown x w, .mousemove x w, .mouseup]).entries
      = es.map (fun e =>
        { e with hidden := (entryHidden (((cfg.tlEnd - cfg.tlStart : ℤ) : ℚ) * (x / w))
            (((cfg.tlEnd - cfg.tlStart : ℤ) : ℚ) * (x / w)) e) }) := by
  refine ⟨?_, ?_, ?_, ?_⟩ <;>
    simp [run, step, handleMousedown, handleMousemove, clearSlider, initState,
      jsMin_self, jsMax_self]

/-- C1 counterexample: in the sequence mousedown at fraction 0, one
mousemove at the same fraction and release, the maximum normalized
displacement from the origin is 0, which is `≤ LIMIT`.  The claim demands
that no visual slider be created, that the release toggle the panel (here,
from visible to hidden) and that all entries end unhidden.  Instead the
code creates a slider already on mousedown, leaves the panel visible
(forced), and hides the entry `[5, 20]`. -/
theorem C1_counterexample :
    ((0 : ℚ) ≤ LIMIT) ∧
    (run ⟨0, 10⟩ (initState true [⟨5, 20, false⟩]) [.mousedown 0 1]).slider = true ∧
    (run ⟨0, 10⟩ (initState true [⟨5, 20, false⟩])
      [.mousedown 0 1, .mousemove 0 1, .mouseup]).visible = true ∧
    (run ⟨0, 10⟩ (initState true [⟨5, 20, false⟩])
      [.mousedown 0 1, .mousemove 0 1, .mouseup]).entries = [⟨5, 20, true⟩] := by
  refine ⟨by norm_num [LIMIT], ?_, ?_, ?_⟩ <;>
    simp [run, step, handleMousedown, handleMousemove, clearSlider, entryHidden,
      initState, jsMin, jsMax]

/-- C1 amended: no motion threshold is involved.  A visual slider is created
on every mousedown.  On release, if at least one mousemove fired since the
mousedown, the panel is forced visible and the slider persists; if no
mousemove fired, the slider is removed, all entries are unhidden and the
panel's visibility is toggled. -/
theorem C1_amended (cfg : Config) (v : Bool) (es : List Entry) (x w : ℚ)
    (moves : List (ℚ × ℚ)) (hne : moves ≠ []) :
    (step cfg (initState v es) (.mousedown x w)).slider = true ∧
    (run cfg (initState v es)
      (.mousedown x w :: (moves.map (fun p => Event.mousemove p.1 p.2)
        ++ [Event.mouseup]))).visible = true ∧
    (run cfg (initState v es)
      (.mousedown x w :: (moves.map (fun p => Event.mousemove p.1 p.2)
        ++ [Event.mouseup]))).slider = true ∧
    (run cfg (initState v es) [.mousedown x w, .mouseup]).slider = false ∧
    (run cfg (initState v es) [.mousedown x w, .mouseup]).visible = !v ∧
    (∀ e ∈ (run cfg (initState v es) [.mousedown x w, .mouseup]).entries,
      e.hidden = false) := by
  have hAct : (step cfg (initState v es) (.mousedown x w)).moveActive = true := by
    simp [step, handleMousedown, initState]
  have hSlider1 : (step cfg (initState v es) (.mousedown x w)).slider = true := by
    simp [step, handleMousedown, initState]
  have hVis1 : (step cfg (initState v es) (.mousedown x w)).visible = v := by
    simp [step, handleMousedown, initState]
  have hSpanF1 : (step cfg (initState v es) (.mousedown x w)).spanFrom = none := by
    simp [step, handleMousedown, initState]
  have hrun : run cfg (initState v es)
      (.mousedown x w :: (moves.map (fun p => Event.mousemove p.1 p.2)
        ++ [Event.mouseup]))
      = step cfg (run cfg (step cfg (initState v es) (.mousedown x w))
          (moves.map (fun p => Event.mousemove p.1 p.2))) Event.mouseup := by
    simp [run, run_append]
  obtain ⟨hMA, hSl, hSC, hV, hE, hSt⟩ :=
    run_moves_preserve cfg (step cfg (initState v es) (.mousedown x w)) moves hAct
  obtain ⟨hF, hT⟩ :=
    run_moves_span_isSome cfg (step cfg (initState v es) (.mousedown x w)) moves hAct hne
  obtain ⟨f, hf⟩ := Option.isSome_iff_exists.mp hF
  obtain ⟨t, ht⟩ := Option.isSome_iff_exists.mp hT
  have hcommit := clearSlider_commit cfg
    (run cfg (step cfg (initState v es) (.mousedown x w))
      (moves.map (fun p => Event.mousemove p.1 p.2))) f t hf ht
  have hclick := clearSlider_click cfg (step cfg (initState v es) (.mousedown x w))
    (Or.inl hSpanF1)
  have hrunClick : run cfg (initState v es) [.mousedown x w, Event.mouseup]
      = clearSlider cfg (step cfg (initState v es) (.mousedown x w)) := by
    simp [run, step]
  refine ⟨hSlider1, ?_, ?_, ?_, ?_, ?_⟩
  · rw [hrun]
    show (clearSlider cfg _).visible = true
    rw [hcommit]
  · rw [hrun]
    show (clearSlider cfg _).slider = true
    rw [hcommit]
    simpa [hSl] using hSlider1
  · rw [hrunClick, hclick]
  · rw [hrunClick, hclick]
    simp [hVis1]
  · rw [hrunClick, hclick]
    intro e he
    rcases List.mem_map.mp he with ⟨a, _, rfl⟩
    rfl

/-- C1 amended witness: concrete gesture over the domain `[0, 10]` with one
move to fraction `1/2`, and a bare mousedown–mouseup click. -/
theorem C1_amended_witness :
    ([((1 : ℚ), (2 : ℚ))] ≠ ([] : List (ℚ × ℚ))) ∧
    ((step ⟨0, 10⟩ (initState true [⟨5, 20, true⟩]) (.mousedown 0 1)).slider = true ∧
    (run ⟨0, 10⟩ (initState true [⟨5, 20, true⟩])
      (.mousedown 0 1 :: (([((1 : ℚ), (2 : ℚ))].map (fun p => Event.mousemove p.1 p.2))
        ++ [Event.mouseup]))).visible = true ∧
    (run ⟨0, 10⟩ (initState true [⟨5, 20, true⟩])
      (.mousedown 0 1 :: (([((1 : ℚ), (2 : ℚ))].map (fun p => Event.mousemove p.1 p.2))
        ++ [Event.mouseup]))).slider = true ∧
    (run ⟨0, 10⟩ (initState true [⟨5, 20, true⟩]) [.mousedown 0 1, .mouseup]).slider
      = false ∧
    (run ⟨0, 10⟩ (initState true [⟨5, 20, true⟩]) [.mousedown 0 1, .mouseup]).visible
      = !true ∧
    (∀ e ∈ (run ⟨0, 10⟩ (initState true [⟨5, 20, true⟩])
        [.mousedown 0 1, .mouseup]).entries, e.hidden = false)) :=
  ⟨by simp,
    C1_amended ⟨0, 10⟩ true [⟨5, 20, true⟩] 0 1 [((1 : ℚ), (2 : ℚ))] (by simp)⟩

/-- C3 counterexample: with the timeline domain `[1000, 2000]` and entries
A `[1100, 1200]` and B `[1900, 2050]`, the committed drag over the
normalized span `[0, 1/2]` hides BOTH entries — the code's window is
`duration * span`, i.e. `[0, 500]`, not `[1000, 1500]` — whereas the claim
asserts entry A ends visible. -/
theorem C3_counterexample :
    (run ⟨1000, 2000⟩ (initState false [⟨1100, 1200, false⟩, ⟨1900, 2050, false⟩])
      [.mousedown 0 100, .mousemove 50 100, .mouseup]).entries
      = [⟨1100, 1200, true⟩, ⟨1900, 2050, true⟩] := by
  simp [run, step, handleMousedown, handleMousemove, clearSlider, entryHidden,
    initState, jsMin, jsMax]
  norm_num

/-- C3 amended: the committed span is `[0, 1/2]`, the resulting window is
`[duration * 0, duration * (1/2)] = [0, 500]` (the mapping never adds the
domain start `1000`), so entry A `[1100, 1200]` and entry B `[1900, 2050]`
both end hidden (`1200 > 500` and `2050 > 500`); the panel becomes
visible. -/
theorem C3_amended :
    (run ⟨1000, 2000⟩ (initState false [⟨1100, 1200, false⟩, ⟨1900, 2050, false⟩])
      [.mousedown 0 100, .mousemove 50 100]).spanFrom = some 0 ∧
    (run ⟨1000, 2000⟩ (initState false [⟨1100, 1200, false⟩, ⟨1900, 2050, false⟩])
      [.mousedown 0 100, .mousemove 50 100]).spanTo = some (1/2) ∧
    (run ⟨1000, 2000⟩ (initState false [⟨1100, 1200, false⟩, ⟨1900, 2050, false⟩])
      [.mousedown 0 100, .mousemove 50 100, .mouseup]).entries
      = ([⟨1100, 1200, false⟩, ⟨1900, 2050, false⟩] : List Entry).map (fun e =>
          { e with hidden := (entryHidden 0 500 e) }) ∧
    (run ⟨1000, 2000⟩ (initState false [⟨1100, 1200, false⟩, ⟨1900, 2050, false⟩])
      [.mousedown 0 100, .mousemove 50 100, .mouseup]).entries
      = [⟨1100, 1200, true⟩, ⟨1900, 2050, true⟩] ∧
    (run ⟨1000, 2000⟩ (initState false [⟨1100, 1200, false⟩, ⟨1900, 2050, false⟩])
      [.mousedown 0 100, .mousemove 50 100, .mouseup]).visible = true := by
  refine ⟨?_, ?_, ?_, ?_, ?_⟩ <;>
    simp [run, step, handleMousedown, handleMousemove, clearSlider, entryHidden,
      initState, jsMin, jsMax] <;>
    norm_num

/-- C4 counterexample: after a committed drag the slider persists and the
span is cleared; a further release then finds a slider but no span.  The
claim says the panel's visibility is left unchanged in that case; the code
toggles it (here, from visible to hidden). -/
theorem C4_counterexample :
    (run ⟨0, 10⟩ (initState true []) [.mousedown 0 1, .mousemove 1 2, .mouseup]).slider
      = true ∧
    (run ⟨0, 10⟩ (initState true []) [.mousedown 0 1, .mousemove 1 2, .mouseup]).spanFrom
      = none ∧
    (run ⟨0, 10⟩ (initState true []) [.mousedown 0 1, .mousemove 1 2, .mouseup]).spanTo
      = none ∧
    (run ⟨0, 10⟩ (initState true []) [.mousedown 0 1, .mousemove 1 2, .mouseup]).visible
      = true ∧
    (run ⟨0, 10⟩ (initState true [])
      [.mousedown 0 1, .mousemove 1 2, .mouseup, .mouseup]).visible = false := by
  refine ⟨?_, ?_, ?_, ?_, ?_⟩ <;>
    simp [run, step, handleMousedown, handleMousemove, clearSlider, entryHidden,
      initState, jsMin, jsMax]

/-- C4 amended: on a release without a meaningful drag all entries' hidden
flags are cleared, any existing slider is removed, and the panel's
visibility is always toggled — whether or not a slider existed. -/
theorem C4_amended (cfg : Config) (s : State)
    (h : s.spanFrom = none ∨ s.spanTo = none) :
    (clearSlider cfg s).slider = false ∧
    (∀ e ∈ (clearSlider cfg s).entries, e.hidden = false) ∧
    (clearSlider cfg s).visible = !s.visible := by
  rw [clearSlider_click cfg s h]
  refine ⟨rfl, ?_, rfl⟩
  intro e he
  rcases List.mem_map.mp he with ⟨a, _, rfl⟩
  rfl

/-- C4 amended witness: a release on a state holding a leftover slider and
no span removes the slider, unhides the entry and toggles the panel off. -/
theorem C4_amended_witness :
    (({ initState true [⟨1, 2, true⟩] with slider := true, sliderCount := 1 } : State).spanFrom
      = none ∨
     ({ initState true [⟨1, 2, true⟩] with slider := true, sliderCount := 1 } : State).spanTo
      = none) ∧
    ((clearSlider ⟨0, 10⟩
        { initState true [⟨1, 2, true⟩] with slider := true, sliderCount := 1 }).slider
      = false ∧
    (∀ e ∈ (clearSlider ⟨0, 10⟩
        { initState true [⟨1, 2, true⟩] with slider := true, sliderCount := 1 }).entries,
      e.hidden = false) ∧
    (clearSlider ⟨0, 10⟩
        { initState true [⟨1, 2, true⟩] with slider := true, sliderCount := 1 }).visible
      = !({ initState true [⟨1, 2, true⟩] with
            slider := true, sliderCount := 1 } : State).visible) :=
  ⟨Or.inl rfl,
    C4_amended ⟨0, 10⟩
      { initState true [⟨1, 2, true⟩] with slider := true, sliderCount := 1 }
      (Or.inl rfl)⟩

/-- The slider handle and the attached slider elements stay in lock step:
the count of attached slider elements is 1 when the closure holds a handle
and 0 otherwise. -/
def SliderInv (s : State) : Prop :=
  s.sliderCount = if s.slider then 1 else 0

lemma sliderInv_step (cfg : Config) (s : State) (ev : Event) (h : SliderInv s) :
    SliderInv (step cfg s ev) := by
  cases ev with
  | mousedown x w =>
    cases hs : s.slider <;>
      simp [SliderInv, step, handleMousedown, hs] at h ⊢ <;> omega
  | mousemove x w =>
    by_cases hact : s.moveActive = true
    · rw [step_mousemove_active cfg s x w hact]
      simpa [SliderInv] using h
    · have hact' : s.moveActive = false := by simpa using hact
      simpa [SliderInv, step, handleMousemove, hact'] using h
  | mouseup =>
    cases hF : s.spanFrom with
    | some f =>
      cases hT : s.spanTo with
      | some t =>
        show SliderInv (clearSlider cfg s)
        rw [clearSlider_commit cfg s f t hF hT]
        simpa [SliderInv] using h
      | none =>
        show SliderInv (clearSlider cfg s)
        rw [clearSlider_click cfg s (Or.inr hT)]
        cases hs : s.slider <;> simp [SliderInv, hs] at h ⊢ <;> omega
    | none =>
      show SliderInv (clearSlider cfg s)
      rw [clearSlider_click cfg s (Or.inl hF)]
      cases hs : s.slider <;> simp [SliderInv, hs] at h ⊢ <;> omega

lemma sliderInv_run (cfg : Config) (s : State) (evs : List Event) (h : SliderInv s) :
    SliderInv (run cfg s evs) := by
  induction evs generalizing s with
  | nil => exact h
  | cons e es ih => exact ih (step cfg s e) (sliderInv_step cfg s e h)

/-- C6 counterexample: a mousemove past the right edge of the track
(offset 3 on a track of width 2) stores the unclamped span bound `3/2 > 1`,
and a move to fraction `1/3` stores `1/3` exactly, which is not a multiple
of `1/1000` — the span fields are neither clamped to `[0, 1]` nor rounded
to 3 decimal digits. -/
theorem C6_counterexample :
    (run ⟨0, 10⟩ (initState false []) [.mousedown 0 2, .mousemove 3 2]).spanTo
      = some (3/2) ∧
    ¬((3 : ℚ)/2 ≤ 1) ∧
    (run ⟨0, 10⟩ (initState false []) [.mousedown 0 3, .mousemove 1 3]).spanTo
      = some (1/3) ∧
    ¬(∃ n : ℤ, (1/3 : ℚ) = (n : ℚ) / 1000) := by
  refine ⟨?_, by norm_num, ?_, ?_⟩
  · simp [run, step, handleMousedown, handleMousemove, initState, jsMin, jsMax]
    norm_num
  · simp [run, step, handleMousedown, handleMousemove, initState, jsMin, jsMax]
  · rintro ⟨n, hn⟩
    have h3 : (1000 : ℚ) = 3 * (n : ℚ) := by
      field_simp at hn
      linarith
    have h4 : (1000 : ℤ) = 3 * n := by exact_mod_cast h3
    omega

/-- C6 amended: after any motion update the span fields hold exactly the
minimum and maximum of the origin fraction and the current fraction of the
last move — unclamped and unrounded; rounding (to whole percent) applies
only to the slider element's `left` and `width` styles. -/
theorem C6_amended (cfg : Config) (v : Bool) (es : List Entry) (x w : ℚ)
    (moves : List (ℚ × ℚ)) (p : ℚ × ℚ) :
    (run cfg (initState v es)
      (.mousedown x w :: ((moves ++ [p]).map (fun q => Event.mousemove q.1 q.2)))).spanFrom
      = some (jsMin (x / w) (p.1 / p.2)) ∧
    (run cfg (initState v es)
      (.mousedown x w :: ((moves ++ [p]).map (fun q => Event.mousemove q.1 q.2)))).spanTo
      = some (jsMax (x / w) (p.1 / p.2)) ∧
    (run cfg (initState v es)
      (.mousedown x w :: ((moves ++ [p]).map (fun q => Event.mousemove q.1 q.2)))).sliderLeft
      = some (jsRound (jsMin (x / w) (p.1 / p.2) * 100)) ∧
    (run cfg (initState v es)
      (.mousedown x w :: ((moves ++ [p]).map (fun q => Event.mousemove q.1 q.2)))).sliderWidth
      = some (jsRound ((jsMax (x / w) (p.1 / p.2) - jsMin (x / w) (p.1 / p.2)) * 100)) := by
  have hAct : (step cfg (initState v es) (.mousedown x w)).moveActive = true := by
    simp [step, handleMousedown, initState]
  have hStart : (step cfg (initState v es) (.mousedown x w)).start = some (x / w) := by
    simp [step, handleMousedown, initState]
  have hrun : run cfg (initState v es)
      (.mousedown x w :: ((moves ++ [p]).map (fun q => Event.mousemove q.1 q.2)))
      = step cfg (run cfg (step cfg (initState v es) (.mousedown x w))
          (moves.map (fun q => Event.mousemove q.1 q.2))) (.mousemove p.1 p.2) := by
    simp [run, run_append]
  obtain ⟨hMA, _, _, _, _, hSt⟩ :=
    run_moves_preserve cfg (step cfg (initState v es) (.mousedown x w)) moves hAct
  rw [hrun, step_mousemove_active cfg _ p.1 p.2 hMA, hSt, hStart]
  exact ⟨rfl, rfl, rfl, rfl⟩

/-- C7 counterexample: a mouseup delivered to an idle timeline (no motion
listener attached) is not a no-op: with the panel visible and one hidden
entry, the code toggles the panel to hidden and clears the entry's hidden
flag. -/
theorem C7_counterexample :
    (initState true [⟨5, 20, true⟩]).moveActive = false ∧
    (initState true [⟨5, 20, true⟩]).visible = true ∧
    (step ⟨0, 10⟩ (initState true [⟨5, 20, true⟩]) .mouseup).visible = false ∧
    (step ⟨0, 10⟩ (initState true [⟨5, 20, true⟩]) .mouseup).entries
      = [⟨5, 20, false⟩] := by
  refine ⟨rfl, rfl, ?_, ?_⟩ <;> simp [step, clearSlider, initState]

/-- C7 amended: a mouseup delivered while no gesture is active (no motion
listener, no pending span) takes the click path: it removes any leftover
slider element, clears every entry's hidden flag and toggles the panel's
visibility — it is not a no-op. -/
theorem C7_amended (cfg : Config) (s : State) (_hm : s.moveActive = false)
    (hf : s.spanFrom = none) (_ht : s.spanTo = none) :
    (step cfg s .mouseup).slider = false ∧
    (step cfg s .mouseup).sliderCount
      = (if s.slider then s.sliderCount - 1 else s.sliderCount) ∧
    (∀ e ∈ (step cfg s .mouseup).entries, e.hidden = false) ∧
    (step cfg s .mouseup).visible = !s.visible := by
  show (clearSlider cfg s).slider = false ∧ (clearSlider cfg s).sliderCount = _ ∧
    (∀ e ∈ (clearSlider cfg s).entries, e.hidden = false) ∧
    (clearSlider cfg s).visible = !s.visible
  rw [clearSlider_click cfg s (Or.inl hf)]
  refine ⟨rfl, rfl, ?_, rfl⟩
  intro e he
  rcases List.mem_map.mp he with ⟨a, _, rfl⟩
  rfl

/-- C7 amended witness: a mouseup on the idle state with a visible panel
and one hidden entry toggles the panel off and unhides the entry. -/
theorem C7_amended_witness :
    ((initState true [⟨1, 2, true⟩]).moveActive = false) ∧
    ((initState true [⟨1, 2, true⟩]).spanFrom = none) ∧
    ((initState true [⟨1, 2, true⟩]).spanTo = none) ∧
    ((step ⟨0, 10⟩ (initState true [⟨1, 2, true⟩]) .mouseup).slider = false ∧
    (step ⟨0, 10⟩ (initState true [⟨1, 2, true⟩]) .mouseup).sliderCount
      = (if (initState true [⟨1, 2, true⟩]).slider then
          (initState true [⟨1, 2, true⟩]).sliderCount - 1
        else (initState true [⟨1, 2, true⟩]).sliderCount) ∧
    (∀ e ∈ (step ⟨0, 10⟩ (initState true [⟨1, 2, true⟩]) .mouseup).entries,
      e.hidden = false) ∧
    (step ⟨0, 10⟩ (initState true [⟨1, 2, true⟩]) .mouseup).visible
      = !(initState true [⟨1, 2, true⟩]).visible) :=
  ⟨rfl, rfl, rfl,
    C7_amended ⟨0, 10⟩ (initState true [⟨1, 2, true⟩]) rfl rfl rfl⟩

/-- C10: the commit branch of release never touches the slider — the handle
and the attached element survive the committed drag — and, from any state
satisfying the handle/element invariant, every event sequence keeps at most
one slider element attached per timeline. -/
theorem C10_slider_conservation (cfg : Config) (s : State) (f t : ℚ)
    (hf : s.spanFrom = some f) (ht : s.spanTo = some t)
    (hinv : SliderInv s) (evs : List Event) :
    ((clearSlider cfg s).slider = s.slider ∧
     (clearSlider cfg s).sliderCount = s.sliderCount) ∧
    SliderInv (run cfg s evs) ∧
    (run cfg s evs).sliderCount ≤ 1 := by
  refine ⟨⟨?_, ?_⟩, ?_, ?_⟩
  · rw [clearSlider_commit cfg s f t hf ht]
  · rw [clearSlider_commit cfg s f t hf ht]
  · exact sliderInv_run cfg s evs hinv
  · have h := sliderInv_run cfg s evs hinv
    unfold SliderInv at h
    rw [h]
    cases (run cfg s evs).slider <;> simp

/-- C10 witness: a state holding a committed span and one attached slider;
the release keeps the slider, and the subsequent mousedown still leaves at
most one slider element. -/
theorem C10_slider_conservation_witness :
    (({ initState false [] with
          spanFrom := some 0, spanTo := some (1/2), slider := true,
          sliderCount := 1 } : State).spanFrom = some 0) ∧
    (({ initState false [] with
          spanFrom := some 0, spanTo := some (1/2), slider := true,
          sliderCount := 1 } : State).spanTo = some (1/2)) ∧
    SliderInv { initState false [] with
                  spanFrom := some 0, spanTo := some (1/2), slider := true,
                  sliderCount := 1 } ∧
    (((clearSlider ⟨0, 10⟩ { initState false [] with
          spanFrom := some 0, spanTo := some (1/2), slider := true,
          sliderCount := 1 }).slider
        = ({ initState false [] with
              spanFrom := some 0, spanTo := some (1/2), slider := true,
              sliderCount := 1 } : State).slider ∧
      (clearSlider ⟨0, 10⟩ { initState false [] with
          spanFrom := some 0, spanTo := some (1/2), slider := true,
          sliderCount := 1 }).sliderCount
        = ({ initState false [] with
              spanFrom := some 0, spanTo := some (1/2), slider := true,
              sliderCount := 1 } : State).sliderCount) ∧
    SliderInv (run ⟨0, 10⟩ { initState false [] with
                  spanFrom := some 0, spanTo := some (1/2), slider := true,
                  sliderCount := 1 }
        [.mouseup, .mousedown 0 1]) ∧
    (run ⟨0, 10⟩ { initState false [] with
          spanFrom := some 0, spanTo := some (1/2), slider := true,
          sliderCount := 1 }
        [.mouseup, .mousedown 0 1]).sliderCount ≤ 1) :=
  ⟨rfl, rfl, rfl,
    C10_slider_conservation ⟨0, 10⟩
      { initState false [] with
          spanFrom := some 0, spanTo := some (1/2), slider := true, sliderCount := 1 }
      0 (1/2) rfl rfl rfl [.mouseup, .mousedown 0 1]⟩

end Unlock
